import Mathlib

/-
  Verification development for the sitters repository (supervised async task
  runner).  The definitions below are a shallow embedding of the Python
  sources:

    src/sitters/states.py     -> SitState
    src/sitters/context.py    -> SitContext and its set_ methods
    src/sitters/sit.py        -> the Sit configuration record
    src/sitters/sitter.py     -> the Sitter event machine (start, _run_call,
                                 _send_from_cache_or_run, the _watch_for_*
                                 watcher tasks and the signal dispatcher)

  Concurrency model: the Python code runs single threaded cooperative async
  (anyio on asyncio).  Tasks are woken in the order their events were set and
  run until their next await point.  The embedding makes that deterministic
  schedule explicit: setting an anyio.Event enqueues the watcher waiting on it
  (if it has not already consumed its single wait) into a FIFO wake queue, and
  every await point in the translated code drains that queue in order.
  Wall clock timestamps are abstracted to a Nat counter; what matters to the
  claims is only whether stopped_at is set.  User hook lists are opaque: the
  machine counts how many times each list is dispatched, which multiplies the
  call count of every member of the list.
-/

namespace Sitters

/-- states.py: SitState enumeration. -/
inductive SitState where
  | PENDING
  | RUNNING
  | COMPLETED
  | FAILED
  | CANCELLED
deriving DecidableEq, Repr

/-- Terminal states per the data model: COMPLETED, FAILED, CANCELLED. -/
def SitState.isTerminal : SitState → Bool
  | .COMPLETED => true
  | .FAILED => true
  | .CANCELLED => true
  | _ => false

/-- context.py: the SitContext dataclass.  The id and sitter back reference
carry no behavior relevant to the claims and are omitted; started_at and
stopped_at keep their presence and stamping behavior (values are an abstract
Nat clock). -/
structure SitContext where
  name : String
  startedAt : Nat := 0
  stoppedAt : Option Nat := none
  state : SitState := .PENDING
deriving DecidableEq, Repr

/-- context.py set_completed: state := COMPLETED, stamp stopped_at. -/
def SitContext.set_completed (c : SitContext) (now : Nat) : SitContext :=
  { c with state := .COMPLETED, stoppedAt := some now }

/-- context.py set_timedout: state := CANCELLED, stamp stopped_at. -/
def SitContext.set_timedout (c : SitContext) (now : Nat) : SitContext :=
  { c with state := .CANCELLED, stoppedAt := some now }

/-- context.py set_starting: state := RUNNING (no stamp). -/
def SitContext.set_starting (c : SitContext) : SitContext :=
  { c with state := .RUNNING }

/-- context.py set_failed: state := FAILED, stamp stopped_at. -/
def SitContext.set_failed (c : SitContext) (now : Nat) : SitContext :=
  { c with state := .FAILED, stoppedAt := some now }

/-- The class level attributes defined on SitContext in context.py
(dataclass fields plus the methods).  There is no for_sit attribute. -/
def sitContextClassAttrs : List String :=
  ["sitter", "name", "id", "started_at", "stopped_at", "state",
   "for_sitter", "get", "set_completed", "set_timedout", "set_starting",
   "set_failed"]

/-- Python errors surfaced by the embedding. -/
inductive PyErr where
  | attributeError (attr : String)
  | userException
deriving DecidableEq, Repr

/-- Python attribute lookup on the SitContext class: unknown names raise
AttributeError. -/
def getattrSitContext (attr : String) : Except PyErr Unit :=
  if attr ∈ sitContextClassAttrs then .ok () else .error (.attributeError attr)

/-- The signals handled in sitter.py. -/
inductive Sig where
  | SIGTERM
  | SIGINT
  | SIGKILL
  | SIGHUP
  | SIGUSR1
  | SIGUSR2
deriving DecidableEq, Repr

/-- sitter.py lines 99-101: the signal set passed to anyio.open_signal_receiver.
SIGUSR1 and SIGUSR2 (and SIGKILL) are not subscribed. -/
def openSignalReceiverSet : List Sig := [.SIGTERM, .SIGHUP, .SIGINT]

/-- sit.py: the Sit configuration record as observed by the Sitter.
Positional arguments are modelled as a list of Nat, keyword arguments as a
list of (name, value) pairs (a Python dict has distinct keys; where a claim
needs that, it appears as a hypothesis).  Each hook list is opaque to the
machine, so it is represented by its length. -/
structure Sit (V : Type) where
  fnName : String
  args : List Nat := []
  kwargs : List (String × Nat) := []
  timeout : Option Nat := none
  cacheConfigured : Bool := false
  startup_hooks : Nat := 0
  completion_hooks : Nat := 0
  exception_hooks : Nat := 0
  timeout_hooks : Nat := 0
  cancellation_hooks : Nat := 0
  restart_hooks : Nat := 0

/-- Comparison used by Python sorted() on kwargs items: tuples compare by
first component first, and dict keys are distinct, so the key decides. -/
def kwLe (a b : String × Nat) : Prop := a.1 ≤ b.1

instance : DecidableRel kwLe := fun a b => (inferInstance : Decidable (a.1 ≤ b.1))

instance : IsTotal (String × Nat) kwLe := ⟨fun a b => le_total a.1 b.1⟩

instance : IsTrans (String × Nat) kwLe := ⟨fun _ _ _ h h' => le_trans h h'⟩

/-- The cache key tuple of sitter.py lines 194-201: function name, positional
args in order, the KWD_MARK sentinel (implicit in the tuple structure), and
the keyword items sorted. -/
def cacheKey (s : Sit V) : String × List Nat × List (String × Nat) :=
  (s.fnName, s.args, List.insertionSort kwLe s.kwargs)

/-- A keyword list has distinct key names (guaranteed by a Python dict). -/
def NodupKeys (l : List (String × Nat)) : Prop := (l.map Prod.fst).Nodup

/-- Identifiers of the six _watch_for_* watcher tasks started by
Sitter.start (sitter.py lines 51-57).  Each watcher awaits its event exactly
once; when the event is set before the watcher has consumed its wait, the
watcher is appended to the FIFO wake queue. -/
inductive WatcherId where
  | started
  | completed
  | failed
  | timedout
  | restarted
  | cancelled
deriving DecidableEq, Repr

/-- Association list read: first binding wins (Python dict semantics are a
special case since keys are unique). -/
def getItem {K A : Type} [DecidableEq K] : List (K × A) → K → Option A
  | [], _ => none
  | (k', a) :: t, k => if k = k' then some a else getItem t k

/-- Association list write: replaces the first binding of the key, or appends
a new binding (Python setitem). -/
def setItem {K A : Type} [DecidableEq K] : List (K × A) → K → A → List (K × A)
  | [], k, a => [(k, a)]
  | (k', a') :: t, k, a => if k = k' then (k, a) :: t else (k', a') :: setItem t k a

/-- The mutable state of one Sitter invocation: the ambient context (with a
trace of every snapshot it went through, newest first), the six anyio.Event
flags with the consumed-state of their watchers, the FIFO wake queue, the two
cancellation scope flags, the capacity-one result stream, the shared cache
(values are the Python objects stored, i.e. possibly None), and instrumentation
counters (user function calls, cache store operations, dispatch count of each
hook list). -/
structure SitterSt (V : Type) where
  ctx : SitContext
  ctxTrace : List SitContext
  now : Nat
  startedEv : Bool := false
  completedEv : Bool := false
  failedEv : Bool := false
  timedoutEv : Bool := false
  cancelledEv : Bool := false
  restartedEv : Bool := false
  consumedStarted : Bool := false
  consumedCompleted : Bool := false
  consumedFailed : Bool := false
  consumedTimedout : Bool := false
  consumedRestarted : Bool := false
  consumedCancelled : Bool := false
  queue : List WatcherId := []
  callScopeCancelCalled : Bool := false
  timeoutScopeCancelCalled : Bool := false
  tgCancelled : Bool := false
  raisedException : Bool := false
  streamBuf : Option (Option V) := none
  cache : List ((String × List Nat × List (String × Nat)) × Option V) := []
  cacheStores : Nat := 0
  fnCalls : Nat := 0
  startupRuns : Nat := 0
  completionRuns : Nat := 0
  exceptionRuns : Nat := 0
  timeoutRuns : Nat := 0
  cancellationRuns : Nat := 0
  restartRuns : Nat := 0
deriving DecidableEq, Repr

variable {V : Type}

/-- The event flag awaited by a watcher. -/
def evFlag (w : WatcherId) (st : SitterSt V) : Bool :=
  match w with
  | .started => st.startedEv
  | .completed => st.completedEv
  | .failed => st.failedEv
  | .timedout => st.timedoutEv
  | .restarted => st.restartedEv
  | .cancelled => st.cancelledEv

/-- Whether a watcher has already consumed its single event wait. -/
def consumed (w : WatcherId) (st : SitterSt V) : Bool :=
  match w with
  | .started => st.consumedStarted
  | .completed => st.consumedCompleted
  | .failed => st.consumedFailed
  | .timedout => st.consumedTimedout
  | .restarted => st.consumedRestarted
  | .cancelled => st.consumedCancelled

/-- Raise an event flag. -/
def setFlag (w : WatcherId) (st : SitterSt V) : SitterSt V :=
  match w with
  | .started => { st with startedEv := true }
  | .completed => { st with completedEv := true }
  | .failed => { st with failedEv := true }
  | .timedout => { st with timedoutEv := true }
  | .restarted => { st with restartedEv := true }
  | .cancelled => { st with cancelledEv := true }

/-- anyio.Event.set: a second set on an already-set event is a no-op; setting
a fresh event wakes the watcher awaiting it, i.e. appends it to the FIFO wake
queue, unless that watcher has already consumed its single wait and
terminated. -/
def eventSet (w : WatcherId) (st : SitterSt V) : SitterSt V :=
  if evFlag w st then st
  else
    let st := setFlag w st
    if consumed w st then st else { st with queue := st.queue ++ [w] }

/-- The body each _watch_for_* task runs once its event fires
(sitter.py lines 123-157).  The state transition methods prepended to the
started, completion, exception and timeout lists run first (they are
scheduled first inside _run_hooks); the restart and cancellation watchers
dispatch only the user hooks.  The completion, exception, timeout and
cancellation watchers then cancel the whole task group; the restart watcher
instead re-arms the restarted event. -/
def runWatcher (w : WatcherId) (st : SitterSt V) : SitterSt V :=
  match w with
  | .started =>
      let c := st.ctx.set_starting
      { st with ctx := c, ctxTrace := c :: st.ctxTrace,
                startupRuns := st.startupRuns + 1, consumedStarted := true }
  | .completed =>
      let c := st.ctx.set_completed st.now
      { st with ctx := c, ctxTrace := c :: st.ctxTrace, now := st.now + 1,
                completionRuns := st.completionRuns + 1,
                consumedCompleted := true, tgCancelled := true }
  | .failed =>
      let c := st.ctx.set_failed st.now
      { st with ctx := c, ctxTrace := c :: st.ctxTrace, now := st.now + 1,
                exceptionRuns := st.exceptionRuns + 1,
                consumedFailed := true, tgCancelled := true }
  | .timedout =>
      let c := st.ctx.set_timedout st.now
      { st with ctx := c, ctxTrace := c :: st.ctxTrace, now := st.now + 1,
                timeoutRuns := st.timeoutRuns + 1,
                consumedTimedout := true, tgCancelled := true }
  | .restarted =>
      { st with restartRuns := st.restartRuns + 1,
                restartedEv := false, consumedRestarted := true }
  | .cancelled =>
      { st with cancellationRuns := st.cancellationRuns + 1,
                consumedCancelled := true, tgCancelled := true }

/-- Drain a wake queue in FIFO order. -/
def drainGo : List WatcherId → SitterSt V → SitterSt V
  | [], st => st
  | w :: ws, st => drainGo ws (runWatcher w st)

/-- An await point: every woken watcher runs (its hook dispatch completes in
one scheduling round, as with the async-mock hooks of the test suite). -/
def drain (st : SitterSt V) : SitterSt V :=
  drainGo st.queue { st with queue := [] }

/-- sitter.py lines 103-121, the match inside _watch_for_signals.  SIGTERM,
SIGINT and SIGKILL set the cancelled event.  SIGHUP cancels the current
call_scope (the relaunch via tg.start_soon is modelled at the call site in
runCallEvents).  The SIGUSR1 and SIGUSR2 arms are literally `...`: no pause
loop exists and the state is untouched. -/
def watch_for_signals_dispatch (s : Sig) (st : SitterSt V) : SitterSt V :=
  match s with
  | .SIGTERM => eventSet .cancelled st
  | .SIGINT => eventSet .cancelled st
  | .SIGKILL => eventSet .cancelled st
  | .SIGHUP => { st with callScopeCancelCalled := true }
  | .SIGUSR1 => st
  | .SIGUSR2 => st

/-- The tail of _send_from_cache_or_run (sitter.py lines 175-192): the cache
write gate, then the send gate.  The write gate checks only the four event
flags (not from_cache, not completed).  The send gate fires when the result
came from cache or a completed, timedout or failed event is set; it sets the
completed event itself and sends the result into the capacity-one stream,
which is an await point, so woken watchers run.  When the send gate does not
fire (a restart iteration) the task simply ends with no await, and the wake
queue is carried to the next scheduling point. -/
def sendTail (s : Sit V) (fromCache : Bool) (result : Option V)
    (st : SitterSt V) : SitterSt V :=
  let st :=
    if s.cacheConfigured && !st.timedoutEv && !st.failedEv
        && !st.cancelledEv && !st.restartedEv then
      { st with cache := setItem st.cache (cacheKey s) result,
                cacheStores := st.cacheStores + 1 }
    else st
  if fromCache || st.completedEv || st.timedoutEv || st.failedEv then
    let st := eventSet .completed st
    let st := { st with streamBuf := some result }
    drain st
  else
    drain st

/-- Entry of _run_call (sitter.py lines 67-76): fresh call and timeout scopes,
started.set(), the `await anyio.sleep(0.05)` checkpoint that lets hooks run,
then the user call begins. -/
def callEntry (st : SitterSt V) : SitterSt V :=
  let st := { st with callScopeCancelCalled := false,
                      timeoutScopeCancelCalled := false }
  let st := eventSet .started st
  let st := drain st
  { st with fnCalls := st.fnCalls + 1 }

/-- The condition of sitter.py line 169: a configured cache that is truthy
(non-empty) and contains the key. -/
def cacheProbeHit (s : Sit V) (st : SitterSt V) : Bool :=
  s.cacheConfigured && !st.cache.isEmpty && (getItem st.cache (cacheKey s)).isSome

/-- Cache hit branch of _send_from_cache_or_run (lines 169-171): read the
stored value and continue with from_cache = True.  The call driver is never
entered. -/
def cacheHitPath (s : Sit V) (st : SitterSt V) : SitterSt V :=
  sendTail s true ((getItem st.cache (cacheKey s)).getD none) st

/-- What the environment does while the user call is pending.  ret and
raiseExc are the user computation finishing; timeoutFires is the
move_on_after deadline elapsing (only possible when a timeout is configured);
sig is a signal delivered by the (possibly test-patched) receiver stream. -/
inductive Evt (V : Type) where
  | ret (v : V)
  | raiseExc
  | timeoutFires
  | sig (s : Sig)
deriving DecidableEq, Repr

/-- The events arriving while one _run_call invocation is pending, and the
except/else handling of sitter.py lines 74-96 once the call ends, followed by
the gates of _send_from_cache_or_run.  An empty event list leaves the call
pending forever (the caller would block; no claim exercises this).  The
SIGHUP arm inlines the relaunched _send_from_cache_or_run task (cache probe,
then a fresh _run_call); the top level task is the non-recursive wrapper
send_from_cache_or_run below. -/
def runCallEvents (s : Sit V) : List (Evt V) → SitterSt V → SitterSt V
  | [], st => st
  | .ret v :: _, st =>
      -- lines 94-96: completed.set(), return result; scopes exit normally
      let st := eventSet .completed st
      sendTail s false (some v) st
  | .raiseExc :: _, st =>
      -- lines 91-93: failed.set(), re-raise; the exception unwinds the task
      -- group and reaches the caller; the woken exception watcher dispatches
      -- its hooks before the teardown completes
      let st := eventSet .failed st
      let st := { st with raisedException := true }
      drain st
  | .timeoutFires :: _, st =>
      -- lines 77-80: the cancellation is claimed by timeout_scope:
      -- timedout.set(), re-raise, absorbed by move_on_after; _run_call
      -- returns None and the gates run
      let st := { st with timeoutScopeCancelCalled := true }
      let st := eventSet .timedout st
      sendTail s false none st
  | .sig sg :: rest, st =>
      let st1 := watch_for_signals_dispatch sg st
      match sg with
      | .SIGTERM => drain st1
      | .SIGINT => drain st1
      | .SIGKILL => drain st1
        -- cancel family: the cancellation watcher runs its hooks and cancels
        -- the task group; the call unwinds with neither scope claiming the
        -- cancellation (lines 86-88 set nothing); no gate, no send
      | .SIGHUP =>
        -- lines 109-115: call_scope.cancel() plus a fresh
        -- _send_from_cache_or_run task; the pending call unwinds through
        -- lines 83-85 (call_scope claimed it): restarted.set(), absorbed by
        -- call_scope; the gates run with restarted set (no store, no send);
        -- then the relaunched _send_from_cache_or_run probes the cache and
        -- enters a fresh _run_call
          let st2 := eventSet .restarted st1
          let st3 := sendTail s false none st2
          if cacheProbeHit s st3 then cacheHitPath s st3
          else runCallEvents s rest (callEntry st3)
      | .SIGUSR1 => runCallEvents s rest st1
      | .SIGUSR2 => runCallEvents s rest st1

/-- _send_from_cache_or_run, sitter.py lines 166-192: probe the cache; on a
hit bypass the call driver, otherwise run _run_call against the event
script. -/
def send_from_cache_or_run (s : Sit V) (evts : List (Evt V))
    (st : SitterSt V) : SitterSt V :=
  if cacheProbeHit s st then cacheHitPath s st
  else runCallEvents s evts (callEntry st)

/-- An entry of a dispatched hook list: either one of the SitContext state
transition methods or an opaque user hook (identified by its position in the
configured list). -/
inductive HookItem where
  | setStarting
  | setCompleted
  | setFailed
  | setTimedout
  | userHook (i : Nat)
deriving DecidableEq, Repr

/-- The opaque user hooks of a list of length n. -/
def userHooks (n : Nat) : List HookItem := (List.range n).map .userHook

/-- sitter.py line 125: the list _watch_for_started passes to _run_hooks. -/
def startedHookList (s : Sit V) : List HookItem :=
  .setStarting :: userHooks s.startup_hooks

/-- sitter.py lines 129-131: the list _watch_for_completion dispatches. -/
def completionHookList (s : Sit V) : List HookItem :=
  .setCompleted :: userHooks s.completion_hooks

/-- sitter.py line 136: the list _watch_for_exception dispatches. -/
def exceptionHookList (s : Sit V) : List HookItem :=
  .setFailed :: userHooks s.exception_hooks

/-- sitter.py line 141: the list _watch_for_timeout dispatches. -/
def timeoutHookList (s : Sit V) : List HookItem :=
  .setTimedout :: userHooks s.timeout_hooks

/-- sitter.py line 146: _watch_for_restarts dispatches only the user restart
hooks; no state transition is prepended. -/
def restartHookList (s : Sit V) : List HookItem := userHooks s.restart_hooks

/-- sitter.py line 156: _watch_for_cancellation dispatches only the user
cancellation hooks; no state transition is prepended (context.py defines no
set_cancelled). -/
def cancellationHookList (s : Sit V) : List HookItem :=
  userHooks s.cancellation_hooks

/-- The stopped_at iff terminal invariant on one context snapshot. -/
def ctxOkB (c : SitContext) : Bool := c.stoppedAt.isSome == c.state.isTerminal

/-- The state transitions observable in reachable traces: the nominal
Pending to Running to terminal path, plus Cancelled to Completed (the send
gate of a timed-out iteration also sets the completed event) and Pending to
Completed (a cache hit never passes through Running). -/
def stepOkB : SitState → SitState → Bool
  | .PENDING, .RUNNING => true
  | .RUNNING, .COMPLETED => true
  | .RUNNING, .FAILED => true
  | .RUNNING, .CANCELLED => true
  | .CANCELLED, .COMPLETED => true
  | .PENDING, .COMPLETED => true
  | _, _ => false

/-- A context trace (newest first) in which every snapshot satisfies the
stopped_at iff terminal invariant and every adjacent transition is in
stepOkB. -/
def traceOkB : List SitContext → Bool
  | [] => true
  | [c] => ctxOkB c
  | cNew :: cOld :: t => ctxOkB cNew && stepOkB cOld.state cNew.state
      && traceOkB (cOld :: t)

/-- True when some snapshot in the trace (newest first) moves away from a
terminal state. -/
def leavesTerminalB : List SitContext → Bool
  | cNew :: cOld :: t =>
      (cOld.state.isTerminal && (cNew.state ≠ cOld.state : Bool))
        || leavesTerminalB (cOld :: t)
  | _ => false

/-- The state of a freshly constructed Sitter plus its eagerly created
SitContext (context.py for_sitter: name from the function, state PENDING,
stopped_at None). -/
def initSt (s : Sit V)
    (cache0 : List ((String × List Nat × List (String × Nat)) × Option V)) :
    SitterSt V :=
  let c : SitContext := { name := s.fnName }
  { ctx := c, ctxTrace := [c], now := 1, cache := cache0 }

/-- The machinery Sitter.start launches under its task group (sitter.py
lines 50-58), run to quiescence against an event script, starting from a
caller-supplied shared cache. -/
def runSit (s : Sit V) (evts : List (Evt V))
    (cache0 : List ((String × List Nat × List (String × Nat)) × Option V)) :
    SitterSt V :=
  send_from_cache_or_run s evts (initSt s cache0)

/-- Sitter.start lines 60-62: after the task group collapses, the result is
received from the stream only when the completed event is set, else None. -/
def startResult (st : SitterSt V) : Option V :=
  if st.completedEv then st.streamBuf.getD none else none

/-- The invariant holding whenever control is at the top of
_send_from_cache_or_run or inside a pending user call: the current context
heads a well-formed trace, the wake queue is drained, the context is Running
exactly when the started event has been set, and none of the terminal events
has fired yet (their watchers are still waiting). -/
def GoodRun (st : SitterSt V) : Prop :=
  st.ctxTrace.head? = some st.ctx ∧
  traceOkB st.ctxTrace = true ∧
  st.queue = [] ∧
  st.ctx.state = (if st.startedEv then SitState.RUNNING else SitState.PENDING) ∧
  (st.startedEv = false → st.consumedStarted = false) ∧
  st.completedEv = false ∧
  st.failedEv = false ∧
  st.timedoutEv = false ∧
  st.cancelledEv = false ∧
  st.consumedCompleted = false ∧
  st.consumedFailed = false ∧
  st.consumedTimedout = false ∧
  st.consumedCancelled = false

/-- The conclusion of the reachable-trace invariant: the final context heads
its trace and the trace is well formed. -/
def TraceOk (st : SitterSt V) : Prop :=
  st.ctxTrace.head? = some st.ctx ∧ traceOkB st.ctxTrace = true

/-- A concrete runnable unit used to evaluate the machine at specific
inputs: one user hook in every list. -/
def exSit : Sit Nat :=
  { fnName := "f", startup_hooks := 1, completion_hooks := 1,
    exception_hooks := 1, timeout_hooks := 1, cancellation_hooks := 1,
    restart_hooks := 1 }

/-- exSit with a one second timeout configured. -/
def exSitTimeout : Sit Nat := { exSit with timeout := some 1 }

/-- exSit with a cache configured. -/
def exSitCache : Sit Nat := { exSit with cacheConfigured := true }

/-- A shared cache already holding the key of exSitCache with stored value
9. -/
def exCacheWithKey :
    List ((String × List Nat × List (String × Nat)) × Option Nat) :=
  [(cacheKey exSitCache, some 9)]

/-- A cache-configured unit whose keyword arguments are written b-first. -/
def exSitKw1 : Sit Nat :=
  { fnName := "g", kwargs := [("b", 1), ("a", 2)], cacheConfigured := true }

/-- The same unit with the keyword arguments written a-first. -/
def exSitKw2 : Sit Nat :=
  { fnName := "g", kwargs := [("a", 2), ("b", 1)], cacheConfigured := true }

/-- Sitter.start (sitter.py lines 48-62).  Line 49 evaluates
SitContext.for_sit, an attribute lookup on the SitContext class, before
anything else runs; on AttributeError the untouched initial state is paired
with the error.  Otherwise the task group machinery runs and the caller sees
either the propagated user exception or the received result. -/
def Sitter.start (s : Sit V) (evts : List (Evt V))
    (cache0 : List ((String × List Nat × List (String × Nat)) × Option V)) :
    SitterSt V × Except PyErr (Option V) :=
  match getattrSitContext "for_sit" with
  | .error e => (initSt s cache0, .error e)
  | .ok _ =>
      let st := runSit s evts cache0
      if st.raisedException then (st, .error .userException)
      else (st, .ok (startResult st))

/-
  Theorems.  Helper lemmas come first, then one theorem (plus witness or
  counterexample where applicable) per claim.
-/

/-- Two key-sorted lists of pairs that are permutations of each other and
have distinct keys are equal: sorting is insensitive to input order. -/
theorem sorted_perm_nodupkeys_eq :
    ∀ (l1 l2 : List (String × Nat)), l1.Perm l2 →
      l1.Sorted kwLe → l2.Sorted kwLe → NodupKeys l1 → l1 = l2 := by
  intro l1
  induction l1 with
  | nil => intro l2 hp _ _ _; exact (hp.nil_eq).symm ▸ rfl
  | cons a t1 ih =>
    intro l2 hp hs1 hs2 hnd
    cases l2 with
    | nil => exact absurd hp.symm.nil_eq (by simp)
    | cons b t2 =>
      have hab : a = b := by
        by_contra hne
        have hat2 : a ∈ t2 := by
          have : a ∈ b :: t2 := hp.subset (List.mem_cons_self a t1)
          cases List.mem_cons.mp this with
          | inl h => exact absurd h hne
          | inr h => exact h
        have hbt1 : b ∈ t1 := by
          have : b ∈ a :: t1 := hp.symm.subset (List.mem_cons_self b t2)
          cases List.mem_cons.mp this with
          | inl h => exact absurd h.symm hne
          | inr h => exact h
        have h1 : kwLe a b := List.rel_of_sorted_cons hs1 b hbt1
        have h2 : kwLe b a := List.rel_of_sorted_cons hs2 a hat2
        have hkey : a.1 = b.1 := le_antisymm h1 h2
        have : b.1 ∈ t1.map Prod.fst := List.mem_map_of_mem Prod.fst hbt1
        have : a.1 ∈ t1.map Prod.fst := hkey ▸ this
        exact (List.nodup_cons.mp (by simpa [NodupKeys] using hnd)).1 this
      subst hab
      have hpt : t1.Perm t2 := (List.perm_cons a).mp hp
      have : t1 = t2 :=
        ih t2 hpt hs1.of_cons hs2.of_cons
          (List.Nodup.of_cons (by simpa [NodupKeys] using hnd))
      rw [this]

/-- Permutations of a distinct-key kwargs list sort identically, hence give
equal cache keys. -/
theorem insertionSort_perm_eq {l1 l2 : List (String × Nat)}
    (hp : l1.Perm l2) (hnd : NodupKeys l1) :
    List.insertionSort kwLe l1 = List.insertionSort kwLe l2 := by
  apply sorted_perm_nodupkeys_eq
  · exact (List.perm_insertionSort kwLe l1).trans
      (hp.trans (List.perm_insertionSort kwLe l2).symm)
  · exact List.sorted_insertionSort kwLe l1
  · exact List.sorted_insertionSort kwLe l2
  · have : (List.insertionSort kwLe l1).Perm l1 := List.perm_insertionSort kwLe l1
    simpa [NodupKeys] using ((this.map Prod.fst).nodup_iff).mpr hnd

/-- The for_sit lookup of Sitter.start line 49 fails, so start returns the
AttributeError paired with the untouched initial state. -/
theorem start_eq_for_sit_error (s : Sit V) (evts : List (Evt V))
    (cache0 : List ((String × List Nat × List (String × Nat)) × Option V)) :
    Sitter.start s evts cache0 =
      (initSt s cache0, Except.error (PyErr.attributeError "for_sit")) := by
  have : getattrSitContext "for_sit" =
      Except.error (PyErr.attributeError "for_sit") := by
    simp [getattrSitContext, sitContextClassAttrs]
  simp [Sitter.start, this]

/-- C2: Every invocation through the public entry point reaches Sitter.start,
whose first action (line 49) looks up SitContext.for_sit; SitContext defines
only for_sitter, so an AttributeError is raised to the caller before any task
is started, any hook dispatched or the cache probed: the paired state is the
untouched initial state, with zero user-function calls, zero cache stores and
zero dispatches of every hook list. -/
theorem C2_start_for_sit_attribute_error (s : Sit V) (evts : List (Evt V))
    (cache0 : List ((String × List Nat × List (String × Nat)) × Option V)) :
    Sitter.start s evts cache0 =
      (initSt s cache0, Except.error (PyErr.attributeError "for_sit")) ∧
    (initSt s cache0).fnCalls = 0 ∧
    (initSt s cache0).cacheStores = 0 ∧
    (initSt s cache0).cache = cache0 ∧
    (initSt s cache0).startupRuns = 0 ∧
    (initSt s cache0).completionRuns = 0 ∧
    (initSt s cache0).exceptionRuns = 0 ∧
    (initSt s cache0).timeoutRuns = 0 ∧
    (initSt s cache0).cancellationRuns = 0 ∧
    (initSt s cache0).restartRuns = 0 :=
  ⟨start_eq_for_sit_error s evts cache0,
   rfl, rfl, rfl, rfl, rfl, rfl, rfl, rfl, rfl⟩

/-- A key found in an association list means the list is not empty. -/
theorem getItem_some_isEmpty {K A : Type} [DecidableEq K]
    {c : List (K × A)} {k : K} {a : A} (h : getItem c k = some a) :
    c.isEmpty = false := by
  cases c with
  | nil => simp [getItem] at h
  | cons p t => rfl

/-- Writing back the value a key already holds leaves the list unchanged. -/
theorem setItem_getItem_self {K A : Type} [DecidableEq K]
    {c : List (K × A)} {k : K} {a : A} (h : getItem c k = some a) :
    setItem c k a = c := by
  induction c with
  | nil => simp [getItem] at h
  | cons p t ih =>
    obtain ⟨k1, a1⟩ := p
    by_cases hk : k = k1
    · simp [getItem, hk] at h
      simp [setItem, hk, h]
    · simp [getItem, hk] at h
      simp [setItem, hk, ih h]

/-- C1: the code as written cannot deliver Some(result) on a normal return:
at the concrete invocation of exSit whose user computation returns 5, the
caller receives AttributeError (missing SitContext.for_sit), not
Except.ok (some 5). -/
theorem C1_caller_gets_attribute_error_not_result :
    Sitter.start exSit [Evt.ret 5] [] =
      (initSt exSit [], Except.error (PyErr.attributeError "for_sit")) ∧
    (Sitter.start exSit [Evt.ret 5] []).2 ≠ Except.ok (some 5) := by
  constructor
  · exact start_eq_for_sit_error exSit [Evt.ret 5] []
  · rw [start_eq_for_sit_error exSit [Evt.ret 5] []]
    simp

/-- C3 counterexample: at the concrete timed-out invocation of exSitTimeout,
the final context state is not Cancelled and the completion hook list was
dispatched, contradicting the claim that the final state is Cancelled and
completion hooks do not run. -/
theorem C3_counterexample :
    ¬((runSit exSitTimeout [Evt.timeoutFires] []).ctx.state =
        SitState.CANCELLED ∧
      (runSit exSitTimeout [Evt.timeoutFires] []).completionRuns = 0) := by
  decide

/-- C3 amended: on a timed-out invocation the caller receives None and the
timeout hook list runs exactly once, but the send gate of
_send_from_cache_or_run also sets the completed event, so the completion hook
list is dispatched once as well and set_completed overwrites the Cancelled
state: the trace is Pending, Running, Cancelled (set_timedout) and finally
Completed. -/
theorem C3_amended_timeout_run (s : Sit V) (_h : s.timeout ≠ none) :
    startResult (runSit s [Evt.timeoutFires] []) = none ∧
    (runSit s [Evt.timeoutFires] []).timeoutRuns = 1 ∧
    (runSit s [Evt.timeoutFires] []).completionRuns = 1 ∧
    (runSit s [Evt.timeoutFires] []).cancellationRuns = 0 ∧
    (runSit s [Evt.timeoutFires] []).ctx.state = SitState.COMPLETED ∧
    (runSit s [Evt.timeoutFires] []).ctxTrace.map SitContext.state =
      [SitState.COMPLETED, SitState.CANCELLED, SitState.RUNNING,
       SitState.PENDING] := by
  cases hcc : s.cacheConfigured <;>
  simp [runSit, send_from_cache_or_run, runCallEvents, callEntry, cacheProbeHit,
        cacheHitPath, sendTail, eventSet, evFlag, consumed, setFlag, drain,
        drainGo, runWatcher, initSt, startResult, watch_for_signals_dispatch,
        SitContext.set_starting, SitContext.set_completed,
        SitContext.set_timedout, hcc]

/-- C3 amended witness: the amended facts hold at the concrete configuration
exSitTimeout, whose timeout is configured. -/
theorem C3_amended_timeout_run_witness :
    exSitTimeout.timeout ≠ none ∧
    (startResult (runSit exSitTimeout [Evt.timeoutFires] []) = none ∧
     (runSit exSitTimeout [Evt.timeoutFires] []).timeoutRuns = 1 ∧
     (runSit exSitTimeout [Evt.timeoutFires] []).completionRuns = 1 ∧
     (runSit exSitTimeout [Evt.timeoutFires] []).cancellationRuns = 0 ∧
     (runSit exSitTimeout [Evt.timeoutFires] []).ctx.state =
       SitState.COMPLETED ∧
     (runSit exSitTimeout [Evt.timeoutFires] []).ctxTrace.map
        SitContext.state =
       [SitState.COMPLETED, SitState.CANCELLED, SitState.RUNNING,
        SitState.PENDING]) :=
  ⟨by decide, C3_amended_timeout_run exSitTimeout (by decide)⟩

/-- C8: on a restart the startup hook list is not re-dispatched: the started
event is a one-shot anyio.Event and its watcher has already consumed its
single wait, so an invocation restarted once by SIGHUP runs the user function
twice but dispatches startup hooks only once (the claim and the test suite
expect twice); the restart iteration itself delivers nothing and the final
completed iteration delivers the result. -/
theorem C8_startup_hooks_once_despite_restart (s : Sit V) (v : V) :
    (runSit s [Evt.sig Sig.SIGHUP, Evt.ret v] []).fnCalls = 2 ∧
    (runSit s [Evt.sig Sig.SIGHUP, Evt.ret v] []).startupRuns = 1 ∧
    (runSit s [Evt.sig Sig.SIGHUP, Evt.ret v] []).restartRuns = 1 ∧
    (runSit s [Evt.sig Sig.SIGHUP, Evt.ret v] []).completionRuns = 1 ∧
    startResult (runSit s [Evt.sig Sig.SIGHUP, Evt.ret v] []) = some v := by
  cases hcc : s.cacheConfigured <;>
  simp [runSit, send_from_cache_or_run, runCallEvents, callEntry, cacheProbeHit,
        cacheHitPath, sendTail, eventSet, evFlag, consumed, setFlag, drain,
        drainGo, runWatcher, initSt, startResult, watch_for_signals_dispatch,
        SitContext.set_starting, SitContext.set_completed, hcc]

/-- C10: there is no pause loop in the code: the SIGUSR1 and SIGUSR2 arms of
the signal match are literal no-ops, neither signal is even subscribed in
open_signal_receiver, and any run of consecutive SIGUSR1 deliveries leaves
the machine exactly where it was (in particular startup hooks are not
re-dispatched because nothing at all happens). -/
theorem C10_usr1_usr2_are_noops (s : Sit V) (st : SitterSt V) (n : Nat)
    (evts : List (Evt V)) :
    watch_for_signals_dispatch Sig.SIGUSR1 st = st ∧
    watch_for_signals_dispatch Sig.SIGUSR2 st = st ∧
    Sig.SIGUSR1 ∉ openSignalReceiverSet ∧
    Sig.SIGUSR2 ∉ openSignalReceiverSet ∧
    runCallEvents s (List.replicate n (Evt.sig Sig.SIGUSR1) ++ evts) st =
      runCallEvents s evts st := by
  refine ⟨rfl, rfl, by decide, by decide, ?_⟩
  induction n generalizing st with
  | zero => rfl
  | succ m ih =>
    rw [List.replicate_succ, List.cons_append]
    have hstep : runCallEvents s
        (Evt.sig Sig.SIGUSR1 ::
          (List.replicate m (Evt.sig Sig.SIGUSR1) ++ evts)) st =
        runCallEvents s (List.replicate m (Evt.sig Sig.SIGUSR1) ++ evts) st := by
      simp [runCallEvents, watch_for_signals_dispatch]
    rw [hstep]
    exact ih st

/-- C4 counterexample: at the concrete cache hit of exSitCache (the key is
present with stored value 9), the completion hook list is dispatched and the
state does not stay Pending, contradicting the zero-hooks and Pending parts
of the claim. -/
theorem C4_counterexample :
    ¬((runSit exSitCache [] exCacheWithKey).completionRuns = 0 ∧
      (runSit exSitCache [] exCacheWithKey).ctx.state = SitState.PENDING) := by
  decide

/-- C4 amended: on a cache hit the stored value is returned and the call
driver is bypassed entirely (the user function is never called, startup hooks
never run, no iteration consumes the event script, so no timeout can apply),
but the send gate sets the completed event: the completion hook list is
dispatched exactly once, the state becomes Completed with stopped_at stamped,
and the stored value is written back under its own key (a store operation
that leaves the cache content unchanged). -/
theorem C4_amended_cache_hit (s : Sit V)
    (c0 : List ((String × List Nat × List (String × Nat)) × Option V))
    (v : Option V) (evts : List (Evt V))
    (hcc : s.cacheConfigured = true)
    (hget : getItem c0 (cacheKey s) = some v) :
    runSit s evts c0 = runSit s [] c0 ∧
    startResult (runSit s evts c0) = v ∧
    (runSit s evts c0).fnCalls = 0 ∧
    (runSit s evts c0).startupRuns = 0 ∧
    (runSit s evts c0).completionRuns = 1 ∧
    (runSit s evts c0).exceptionRuns = 0 ∧
    (runSit s evts c0).timeoutRuns = 0 ∧
    (runSit s evts c0).cancellationRuns = 0 ∧
    (runSit s evts c0).restartRuns = 0 ∧
    (runSit s evts c0).ctx.state = SitState.COMPLETED ∧
    (runSit s evts c0).ctx.stoppedAt = some 1 ∧
    (runSit s evts c0).cacheStores = 1 ∧
    (runSit s evts c0).cache = c0 := by
  have hprobe : cacheProbeHit s (initSt s c0) = true := by
    simp [cacheProbeHit, initSt, hcc, hget, getItem_some_isEmpty hget]
  have hrw : ∀ e : List (Evt V),
      runSit s e c0 = cacheHitPath s (initSt s c0) := by
    intro e
    simp [runSit, send_from_cache_or_run, hprobe]
  rw [hrw evts, hrw []]
  refine ⟨rfl, ?_⟩
  simp [cacheHitPath, sendTail, eventSet, evFlag, consumed, setFlag, drain,
        drainGo, runWatcher, initSt, startResult, SitContext.set_completed,
        hget, hcc, setItem_getItem_self hget]

/-- C4 amended witness: the amended facts hold at exSitCache with the key
already stored with value 9. -/
theorem C4_amended_cache_hit_witness :
    exSitCache.cacheConfigured = true ∧
    getItem exCacheWithKey (cacheKey exSitCache) = some (some 9) ∧
    (runSit exSitCache [Evt.ret 3] exCacheWithKey =
       runSit exSitCache [] exCacheWithKey ∧
     startResult (runSit exSitCache [Evt.ret 3] exCacheWithKey) = some 9 ∧
     (runSit exSitCache [Evt.ret 3] exCacheWithKey).fnCalls = 0 ∧
     (runSit exSitCache [Evt.ret 3] exCacheWithKey).startupRuns = 0 ∧
     (runSit exSitCache [Evt.ret 3] exCacheWithKey).completionRuns = 1 ∧
     (runSit exSitCache [Evt.ret 3] exCacheWithKey).exceptionRuns = 0 ∧
     (runSit exSitCache [Evt.ret 3] exCacheWithKey).timeoutRuns = 0 ∧
     (runSit exSitCache [Evt.ret 3] exCacheWithKey).cancellationRuns = 0 ∧
     (runSit exSitCache [Evt.ret 3] exCacheWithKey).restartRuns = 0 ∧
     (runSit exSitCache [Evt.ret 3] exCacheWithKey).ctx.state =
       SitState.COMPLETED ∧
     (runSit exSitCache [Evt.ret 3] exCacheWithKey).ctx.stoppedAt = some 1 ∧
     (runSit exSitCache [Evt.ret 3] exCacheWithKey).cacheStores = 1 ∧
     (runSit exSitCache [Evt.ret 3] exCacheWithKey).cache = exCacheWithKey) :=
  ⟨by decide, by decide,
   C4_amended_cache_hit exSitCache exCacheWithKey (some 9) [Evt.ret 3]
     (by decide) (by decide)⟩

/-- C5 counterexample: at the concrete cache hit of exSitCache the user
function never runs (no iteration reaches Completed, the result is read from
the cache), yet a cache store operation occurs, contradicting the only-if
direction of the claim. -/
theorem C5_counterexample :
    ¬((runSit exSitCache [] exCacheWithKey).cacheStores = 0) ∧
    (runSit exSitCache [] exCacheWithKey).fnCalls = 0 := by
  decide

/-- C5 amended: the write gate of _send_from_cache_or_run checks only that a
cache is configured and that none of the timedout, failed, cancelled or
restarted events is set.  Consequently a Completed iteration stores its
result, and timeout, failure, external-cancellation and restart terminations
leave the cache unwritten; but a cache hit re-stores the stored value under
its own key, and after two consecutive restarts the stale restarted flag
(whose one-shot watcher is gone) suppresses the store of the final Completed
iteration. -/
theorem C5_amended_write_gate (s : Sit V) (v : V)
    (hcc : s.cacheConfigured = true) :
    (runSit s [Evt.ret v] []).cacheStores = 1 ∧
    (s.timeout ≠ none → (runSit s [Evt.timeoutFires] []).cacheStores = 0) ∧
    (runSit s [Evt.raiseExc] []).cacheStores = 0 ∧
    (runSit s [Evt.sig Sig.SIGTERM] []).cacheStores = 0 ∧
    (runSit s [Evt.sig Sig.SIGHUP, Evt.ret v] []).cacheStores = 1 ∧
    (runSit s [Evt.sig Sig.SIGHUP, Evt.sig Sig.SIGHUP, Evt.ret v]
       []).cacheStores = 0 ∧
    (∀ (c0 : List ((String × List Nat × List (String × Nat)) × Option V)) w,
      getItem c0 (cacheKey s) = some w →
        (runSit s [] c0).cacheStores = 1 ∧ (runSit s [] c0).cache = c0 ∧
        (runSit s [] c0).fnCalls = 0) := by
  refine ⟨?_, fun _ => ?_, ?_, ?_, ?_, ?_, ?_⟩
  · simp [runSit, send_from_cache_or_run, runCallEvents, callEntry,
          cacheProbeHit, cacheHitPath, sendTail, eventSet, evFlag, consumed,
          setFlag, drain, drainGo, runWatcher, initSt, hcc]
  · simp [runSit, send_from_cache_or_run, runCallEvents, callEntry,
          cacheProbeHit, cacheHitPath, sendTail, eventSet, evFlag, consumed,
          setFlag, drain, drainGo, runWatcher, initSt, hcc]
  · simp [runSit, send_from_cache_or_run, runCallEvents, callEntry,
          cacheProbeHit, cacheHitPath, sendTail, eventSet, evFlag, consumed,
          setFlag, drain, drainGo, runWatcher, initSt, hcc]
  · simp [runSit, send_from_cache_or_run, runCallEvents, callEntry,
          cacheProbeHit, cacheHitPath, sendTail, eventSet, evFlag, consumed,
          setFlag, drain, drainGo, runWatcher, initSt,
          watch_for_signals_dispatch, hcc]
  · simp [runSit, send_from_cache_or_run, runCallEvents, callEntry,
          cacheProbeHit, cacheHitPath, sendTail, eventSet, evFlag, consumed,
          setFlag, drain, drainGo, runWatcher, initSt,
          watch_for_signals_dispatch, hcc]
  · simp [runSit, send_from_cache_or_run, runCallEvents, callEntry,
          cacheProbeHit, cacheHitPath, sendTail, eventSet, evFlag, consumed,
          setFlag, drain, drainGo, runWatcher, initSt,
          watch_for_signals_dispatch, hcc]
  · intro c0 w hget
    have hprobe : cacheProbeHit s (initSt s c0) = true := by
      simp [cacheProbeHit, initSt, hcc, hget, getItem_some_isEmpty hget]
    have hrw : runSit s [] c0 = cacheHitPath s (initSt s c0) := by
      simp [runSit, send_from_cache_or_run, hprobe]
    rw [hrw]
    simp [cacheHitPath, sendTail, eventSet, evFlag, consumed, setFlag, drain,
          drainGo, runWatcher, initSt, hget, hcc, setItem_getItem_self hget]

/-- C5 amended witness: the amended write-gate facts hold at the concrete
cache-configured unit exSitCache. -/
theorem C5_amended_write_gate_witness :
    exSitCache.cacheConfigured = true ∧
    ((runSit exSitCache [Evt.ret 3] []).cacheStores = 1 ∧
     (exSitCache.timeout ≠ none →
       (runSit exSitCache [Evt.timeoutFires] []).cacheStores = 0) ∧
     (runSit exSitCache [Evt.raiseExc] []).cacheStores = 0 ∧
     (runSit exSitCache [Evt.sig Sig.SIGTERM] []).cacheStores = 0 ∧
     (runSit exSitCache [Evt.sig Sig.SIGHUP, Evt.ret 3] []).cacheStores = 1 ∧
     (runSit exSitCache [Evt.sig Sig.SIGHUP, Evt.sig Sig.SIGHUP, Evt.ret 3]
        []).cacheStores = 0 ∧
     (∀ (c0 : List ((String × List Nat × List (String × Nat)) × Option Nat)) w,
       getItem c0 (cacheKey exSitCache) = some w →
         (runSit exSitCache [] c0).cacheStores = 1 ∧
         (runSit exSitCache [] c0).cache = c0 ∧
         (runSit exSitCache [] c0).fnCalls = 0)) :=
  ⟨by decide, C5_amended_write_gate exSitCache 3 (by decide)⟩

/-- C6 counterexample: at the concrete externally-cancelled invocation of
exSit the final context state is Running, not Cancelled, and stopped_at was
never stamped: no set_cancelled transition exists or runs. -/
theorem C6_counterexample :
    ¬((runSit exSit [Evt.sig Sig.SIGTERM] []).ctx.state =
        SitState.CANCELLED ∧
      (runSit exSit [Evt.sig Sig.SIGTERM] []).ctx.stoppedAt ≠ none) := by
  decide

/-- C6 amended: the set_ state transitions are prepended to the started,
completion, exception and timeout hook lists only; SitContext defines no
set_cancelled, and the cancellation and restart watchers dispatch pure user
hook lists with no transition prepended.  On external cancellation the
cancellation hook list runs once but the context is left in Running with
stopped_at unset, and the caller receives None. -/
theorem C6_amended_no_set_cancelled (s : Sit V) :
    (startedHookList s).head? = some HookItem.setStarting ∧
    (completionHookList s).head? = some HookItem.setCompleted ∧
    (exceptionHookList s).head? = some HookItem.setFailed ∧
    (timeoutHookList s).head? = some HookItem.setTimedout ∧
    (∀ i ∈ cancellationHookList s, ∃ k, i = HookItem.userHook k) ∧
    (∀ i ∈ restartHookList s, ∃ k, i = HookItem.userHook k) ∧
    (runSit s [Evt.sig Sig.SIGTERM] []).cancellationRuns = 1 ∧
    (runSit s [Evt.sig Sig.SIGTERM] []).ctx.state = SitState.RUNNING ∧
    (runSit s [Evt.sig Sig.SIGTERM] []).ctx.stoppedAt = none ∧
    startResult (runSit s [Evt.sig Sig.SIGTERM] []) = none := by
  refine ⟨rfl, rfl, rfl, rfl, ?_, ?_, ?_⟩
  · intro i hi
    simp [cancellationHookList, userHooks] at hi
    obtain ⟨k, _, hk⟩ := hi
    exact ⟨k, hk.symm⟩
  · intro i hi
    simp [restartHookList, userHooks] at hi
    obtain ⟨k, _, hk⟩ := hi
    exact ⟨k, hk.symm⟩
  · cases hcc : s.cacheConfigured <;>
    simp [runSit, send_from_cache_or_run, runCallEvents, callEntry,
          cacheProbeHit, cacheHitPath, sendTail, eventSet, evFlag, consumed,
          setFlag, drain, drainGo, runWatcher, initSt, startResult,
          watch_for_signals_dispatch, SitContext.set_starting, hcc]

/-- The head of a well-formed trace satisfies the per-context invariant. -/
theorem traceOkB_head {l : List SitContext} {c : SitContext}
    (ht : traceOkB l = true) (hh : l.head? = some c) : ctxOkB c = true := by
  cases l with
  | nil => simp at hh
  | cons c0 t =>
    have : c0 = c := by simpa using hh
    subst this
    cases t with
    | nil => simpa [traceOkB] using ht
    | cons c1 t2 =>
      simp [traceOkB, Bool.and_eq_true] at ht
      exact ht.1.1

/-- Pushing a snapshot that satisfies the context invariant and is an allowed
step from the current head keeps the trace well formed. -/
theorem traceOkB_push {l : List SitContext} {c0 c : SitContext}
    (hh : l.head? = some c0) (ht : traceOkB l = true)
    (hc : ctxOkB c = true) (hs : stepOkB c0.state c.state = true) :
    traceOkB (c :: l) = true := by
  cases l with
  | nil => simp at hh
  | cons c1 t =>
    have : c1 = c0 := by simpa using hh
    subst this
    simp [traceOkB, Bool.and_eq_true]
    exact ⟨⟨hc, hs⟩, ht⟩

/-- Every member of a well-formed trace satisfies the context invariant. -/
theorem ctxOkB_mem_of_traceOkB :
    ∀ {l : List SitContext}, traceOkB l = true → ∀ c ∈ l, ctxOkB c = true := by
  intro l
  induction l with
  | nil => intro _ c hc; simp at hc
  | cons c0 t ih =>
    intro ht c hc
    cases t with
    | nil =>
      simp [traceOkB] at ht
      simp at hc
      subst hc
      exact ht
    | cons c1 t2 =>
      simp [traceOkB, Bool.and_eq_true] at ht
      cases List.mem_cons.mp hc with
      | inl h => subst h; exact ht.1.1
      | inr h => exact ih ht.2 c h

/-- The initial state of an invocation satisfies the scheduling invariant. -/
theorem goodRun_initSt (s : Sit V)
    (cache0 : List ((String × List Nat × List (String × Nat)) × Option V)) :
    GoodRun (initSt s cache0) := by
  refine ⟨rfl, ?_, rfl, rfl, fun _ => rfl, rfl, rfl, rfl, rfl, rfl, rfl,
          rfl, rfl⟩
  rfl

/-- A state satisfying the scheduling invariant has a well-formed trace. -/
theorem traceOk_of_goodRun {st : SitterSt V} (hG : GoodRun st) : TraceOk st :=
  ⟨hG.1, hG.2.1⟩

/-- A normal return keeps the trace well formed: the completed watcher
applies set_completed from Pending or Running. -/
theorem traceOk_ret (s : Sit V) (r : Option V) {st : SitterSt V}
    (hG : GoodRun st) :
    TraceOk (sendTail s false r (eventSet .completed st)) := by
  obtain ⟨h1, h2, h3, h4, h5, h6, h7, h8, h9, h10, h11, h12, h13⟩ := hG
  have hstep : stepOkB st.ctx.state SitState.COMPLETED = true := by
    rw [h4]; cases st.startedEv <;> rfl
  have hc : ctxOkB (SitContext.set_completed st.ctx st.now) = true := by
    simp [ctxOkB, SitContext.set_completed, SitState.isTerminal]
  cases hre : st.restartedEv <;> cases hcc : s.cacheConfigured <;>
    simp [sendTail, eventSet, evFlag, consumed, setFlag, drain, drainGo,
          runWatcher, TraceOk, h3, h6, h7, h8, h9, h10, hre, hcc] <;>
    exact traceOkB_push h1 h2 hc hstep

/-- A cache hit keeps the trace well formed: set_completed runs directly
from the Pending (or Running) context. -/
theorem traceOk_hit (s : Sit V) {st : SitterSt V} (hG : GoodRun st) :
    TraceOk (cacheHitPath s st) := by
  obtain ⟨h1, h2, h3, h4, h5, h6, h7, h8, h9, h10, h11, h12, h13⟩ := hG
  have hstep : stepOkB st.ctx.state SitState.COMPLETED = true := by
    rw [h4]; cases st.startedEv <;> rfl
  have hc : ctxOkB (SitContext.set_completed st.ctx st.now) = true := by
    simp [ctxOkB, SitContext.set_completed, SitState.isTerminal]
  cases hre : st.restartedEv <;> cases hcc : s.cacheConfigured <;>
    simp [cacheHitPath, sendTail, eventSet, evFlag, consumed, setFlag, drain,
          drainGo, runWatcher, TraceOk, h3, h6, h7, h8, h9, h10, hre, hcc] <;>
    exact traceOkB_push h1 h2 hc hstep

/-- A user exception keeps the trace well formed: set_failed runs from
Running. -/
theorem traceOk_raise {st : SitterSt V} (hG : GoodRun st)
    (hst : st.startedEv = true) :
    TraceOk (drain { (eventSet .failed st) with raisedException := true }) := by
  obtain ⟨h1, h2, h3, h4, h5, h6, h7, h8, h9, h10, h11, h12, h13⟩ := hG
  rw [hst] at h4
  have hstep : stepOkB st.ctx.state SitState.FAILED = true := by
    simp at h4; rw [h4]; rfl
  have hc : ctxOkB (SitContext.set_failed st.ctx st.now) = true := by
    simp [ctxOkB, SitContext.set_failed, SitState.isTerminal]
  simp [eventSet, evFlag, consumed, setFlag, drain, drainGo, runWatcher,
        TraceOk, h3, h7, h11]
  exact traceOkB_push h1 h2 hc hstep

/-- A timeout keeps the trace well formed: set_timedout runs from Running
and the subsequently woken completed watcher applies set_completed from
Cancelled. -/
theorem traceOk_timeout (s : Sit V) {st : SitterSt V} (hG : GoodRun st)
    (hst : st.startedEv = true) :
    TraceOk (sendTail s false none
      (eventSet .timedout { st with timeoutScopeCancelCalled := true })) := by
  obtain ⟨h1, h2, h3, h4, h5, h6, h7, h8, h9, h10, h11, h12, h13⟩ := hG
  rw [hst] at h4
  have hstep1 : stepOkB st.ctx.state SitState.CANCELLED = true := by
    simp at h4; rw [h4]; rfl
  have hc1 : ctxOkB (SitContext.set_timedout st.ctx st.now) = true := by
    simp [ctxOkB, SitContext.set_timedout, SitState.isTerminal]
  have hc2 : ctxOkB (SitContext.set_completed
      (SitContext.set_timedout st.ctx st.now) (st.now + 1)) = true := by
    simp [ctxOkB, SitContext.set_completed, SitState.isTerminal]
  have hstep2 : stepOkB (SitContext.set_timedout st.ctx st.now).state
      (SitContext.set_completed (SitContext.set_timedout st.ctx st.now)
        (st.now + 1)).state = true := by
    simp [SitContext.set_timedout, SitContext.set_completed]; rfl
  cases hcc : s.cacheConfigured <;>
    simp [sendTail, eventSet, evFlag, consumed, setFlag, drain, drainGo,
          runWatcher, TraceOk, h3, h6, h7, h8, h9, h10, h12, hcc] <;>
    exact traceOkB_push rfl (traceOkB_push h1 h2 hc1 hstep1) hc2 hstep2

/-- An external cancel signal leaves the context untouched (only the
cancellation watcher runs, and it performs no transition), so the trace stays
well formed. -/
theorem traceOk_cancelSig {st : SitterSt V} (hG : GoodRun st) :
    TraceOk (drain (eventSet .cancelled st)) := by
  obtain ⟨h1, h2, h3, h4, h5, h6, h7, h8, h9, h10, h11, h12, h13⟩ := hG
  simp [eventSet, evFlag, consumed, setFlag, drain, drainGo, runWatcher,
        TraceOk, h3, h9, h13]
  exact ⟨h1, h2⟩

/-- The restart unwind (SIGHUP) preserves the scheduling invariant: only the
restart watcher may run, and it touches no context state. -/
theorem goodRun_hup (s : Sit V) {st : SitterSt V} (hG : GoodRun st) :
    GoodRun (sendTail s false none
      (eventSet .restarted { st with callScopeCancelCalled := true })) := by
  obtain ⟨h1, h2, h3, h4, h5, h6, h7, h8, h9, h10, h11, h12, h13⟩ := hG
  cases hre : st.restartedEv <;> cases hcr : st.consumedRestarted <;>
    simp [sendTail, eventSet, evFlag, consumed, setFlag, drain, drainGo,
          runWatcher, h3, h6, h7, h8, h9, hre, hcr] <;>
    exact ⟨h1, h2, by simp [h3], h4, h5, by simp [h6], by simp [h7],
           by simp [h8], by simp [h9], h10, h11, h12, h13⟩

/-- _run_call entry preserves the scheduling invariant and leaves the
started event set: on the first iteration the started watcher fires here and
moves the context from Pending to Running. -/
theorem goodRun_callEntry {st : SitterSt V} (hG : GoodRun st) :
    GoodRun (callEntry st) ∧ (callEntry st).startedEv = true := by
  obtain ⟨h1, h2, h3, h4, h5, h6, h7, h8, h9, h10, h11, h12, h13⟩ := hG
  cases hst : st.startedEv with
  | true =>
    rw [hst] at h4
    simp at h4
    constructor
    · simp [callEntry, eventSet, evFlag, consumed, setFlag, drain, drainGo,
            hst, h3]
      exact ⟨h1, h2, by simp [h3], by simp [hst, h4], by simp [hst],
             by simp [h6], by simp [h7], by simp [h8], by simp [h9],
             h10, h11, h12, h13⟩
    · simp [callEntry, eventSet, evFlag, consumed, setFlag, drain, drainGo,
            hst, h3]
  | false =>
    rw [hst] at h4
    simp at h4
    have hcs : st.consumedStarted = false := h5 hst
    have hctxok : ctxOkB st.ctx = true := traceOkB_head h2 h1
    have hnone : st.ctx.stoppedAt = none := by
      simp [ctxOkB, h4, SitState.isTerminal] at hctxok
      exact Option.not_isSome_iff_eq_none.mp (by simp [hctxok])
    have hc : ctxOkB (SitContext.set_starting st.ctx) = true := by
      simp [ctxOkB, SitContext.set_starting, SitState.isTerminal, hnone, h4]
    have hstep : stepOkB st.ctx.state
        (SitContext.set_starting st.ctx).state = true := by
      simp [SitContext.set_starting, h4]; rfl
    constructor
    · simp [callEntry, eventSet, evFlag, consumed, setFlag, drain, drainGo,
            runWatcher, hst, hcs, h3]
      exact ⟨rfl, traceOkB_push h1 h2 hc hstep, rfl,
             by simp [SitContext.set_starting], by simp,
             by simp [h6], by simp [h7], by simp [h8], by simp [h9],
             h10, h11, h12, h13⟩
    · simp [callEntry, eventSet, evFlag, consumed, setFlag, drain, drainGo,
            runWatcher, hst, hcs, h3]

/-- Every execution of the machine, from any state satisfying the scheduling
invariant and against any event script, ends with a well-formed context
trace. -/
theorem traceOk_machine (s : Sit V) :
    ∀ evts : List (Evt V),
      (∀ st : SitterSt V, GoodRun st → st.startedEv = true →
        TraceOk (runCallEvents s evts st)) ∧
      (∀ st : SitterSt V, GoodRun st →
        TraceOk (send_from_cache_or_run s evts st)) := by
  intro evts
  induction evts with
  | nil =>
    have H1 : ∀ st : SitterSt V, GoodRun st → st.startedEv = true →
        TraceOk (runCallEvents s [] st) := by
      intro st hG _
      simpa [runCallEvents] using traceOk_of_goodRun hG
    refine ⟨H1, ?_⟩
    intro st hG
    rw [send_from_cache_or_run]
    by_cases hhit : cacheProbeHit s st = true
    · simp only [hhit, if_true]
      exact traceOk_hit s hG
    · simp only [hhit, Bool.false_eq_true, if_false]
      exact H1 _ (goodRun_callEntry hG).1 (goodRun_callEntry hG).2
  | cons e rest ih =>
    obtain ⟨ih1, _⟩ := ih
    have H1 : ∀ st : SitterSt V, GoodRun st → st.startedEv = true →
        TraceOk (runCallEvents s (e :: rest) st) := by
      intro st hG hst
      cases e with
      | ret v =>
        simp only [runCallEvents]
        exact traceOk_ret s (some v) hG
      | raiseExc =>
        simp only [runCallEvents]
        exact traceOk_raise hG hst
      | timeoutFires =>
        simp only [runCallEvents]
        exact traceOk_timeout s hG hst
      | sig sg =>
        cases sg with
        | SIGTERM =>
          simp only [runCallEvents, watch_for_signals_dispatch]
          exact traceOk_cancelSig hG
        | SIGINT =>
          simp only [runCallEvents, watch_for_signals_dispatch]
          exact traceOk_cancelSig hG
        | SIGKILL =>
          simp only [runCallEvents, watch_for_signals_dispatch]
          exact traceOk_cancelSig hG
        | SIGHUP =>
          simp only [runCallEvents, watch_for_signals_dispatch]
          have hG3 := goodRun_hup s hG
          by_cases hhit : cacheProbeHit s
              (sendTail s false none (eventSet .restarted
                { st with callScopeCancelCalled := true })) = true
          · simp only [hhit, if_true]
            exact traceOk_hit s hG3
          · simp only [hhit, Bool.false_eq_true, if_false]
            exact ih1 _ (goodRun_callEntry hG3).1 (goodRun_callEntry hG3).2
        | SIGUSR1 =>
          simp only [runCallEvents, watch_for_signals_dispatch]
          exact ih1 st hG hst
        | SIGUSR2 =>
          simp only [runCallEvents, watch_for_signals_dispatch]
          exact ih1 st hG hst
    refine ⟨H1, ?_⟩
    intro st hG
    rw [send_from_cache_or_run]
    by_cases hhit : cacheProbeHit s st = true
    · simp only [hhit, if_true]
      exact traceOk_hit s hG
    · simp only [hhit, Bool.false_eq_true, if_false]
      exact H1 _ (goodRun_callEntry hG).1 (goodRun_callEntry hG).2

/-- C7 counterexample: in the reachable trace of the concrete timed-out
invocation of exSitTimeout the state leaves the terminal Cancelled state
(set_completed runs after set_timedout), contradicting the claim that no
operation ever moves state out of a terminal state. -/
theorem C7_counterexample :
    leavesTerminalB (runSit exSitTimeout [Evt.timeoutFires] []).ctxTrace =
      true ∧
    (runSit exSitTimeout [Evt.timeoutFires] []).ctxTrace.map
        SitContext.state =
      [SitState.COMPLETED, SitState.CANCELLED, SitState.RUNNING,
       SitState.PENDING] := by
  decide

/-- C7 amended: in every reachable context of every run, stopped_at is set
if and only if the state is terminal; every transition in the trace follows
Pending to Running to a terminal state, except that a timed-out run then
applies set_completed (Cancelled to Completed, leaving a terminal state) and
a cache hit applies set_completed directly from Pending. -/
theorem C7_amended_trace_invariants (s : Sit V) (evts : List (Evt V))
    (cache0 : List ((String × List Nat × List (String × Nat)) × Option V)) :
    (∀ c ∈ (runSit s evts cache0).ctxTrace, ctxOkB c = true) ∧
    traceOkB (runSit s evts cache0).ctxTrace = true ∧
    (runSit s evts cache0).ctxTrace.head? = some (runSit s evts cache0).ctx := by
  have h := (traceOk_machine s evts).2 (initSt s cache0)
    (goodRun_initSt s cache0)
  obtain ⟨hh, ht⟩ := h
  exact ⟨ctxOkB_mem_of_traceOkB ht, ht, hh⟩

/-- C9: two invocations with equal positional arguments and equal keyword
mappings (written in any order) produce the same cache key; with a configured
cache the first invocation completes, stores its result, and the second is a
pure cache hit: results are equal and the user function ran exactly once
across the two invocations. -/
theorem C9_cache_law (s1 s2 : Sit V) (v : V) (evts2 : List (Evt V))
    (hcc1 : s1.cacheConfigured = true)
    (hcc2 : s2.cacheConfigured = true)
    (hfn : s2.fnName = s1.fnName)
    (hargs : s2.args = s1.args)
    (hnd : NodupKeys s1.kwargs)
    (hperm : s2.kwargs.Perm s1.kwargs) :
    cacheKey s2 = cacheKey s1 ∧
    startResult (runSit s1 [Evt.ret v] []) = some v ∧
    (runSit s1 [Evt.ret v] []).fnCalls = 1 ∧
    startResult (runSit s2 evts2 (runSit s1 [Evt.ret v] []).cache) = some v ∧
    (runSit s2 evts2 (runSit s1 [Evt.ret v] []).cache).fnCalls = 0 := by
  have hnd2 : NodupKeys s2.kwargs := (hperm.map Prod.fst).nodup_iff.mpr hnd
  have hkey : cacheKey s2 = cacheKey s1 := by
    simp [cacheKey, hfn, hargs]
    exact insertionSort_perm_eq hperm hnd2
  have hcache1 : (runSit s1 [Evt.ret v] []).cache =
      [(cacheKey s1, some v)] := by
    simp [runSit, send_from_cache_or_run, runCallEvents, callEntry,
          cacheProbeHit, cacheHitPath, sendTail, eventSet, evFlag, consumed,
          setFlag, drain, drainGo, runWatcher, initSt, setItem, hcc1]
  have hres1 : startResult (runSit s1 [Evt.ret v] []) = some v := by
    simp [runSit, send_from_cache_or_run, runCallEvents, callEntry,
          cacheProbeHit, cacheHitPath, sendTail, eventSet, evFlag, consumed,
          setFlag, drain, drainGo, runWatcher, initSt, startResult, hcc1]
  have hfn1 : (runSit s1 [Evt.ret v] []).fnCalls = 1 := by
    simp [runSit, send_from_cache_or_run, runCallEvents, callEntry,
          cacheProbeHit, cacheHitPath, sendTail, eventSet, evFlag, consumed,
          setFlag, drain, drainGo, runWatcher, initSt, hcc1]
  rw [hcache1]
  have hget : getItem [(cacheKey s1, some v)] (cacheKey s2) =
      some (some v) := by
    simp [getItem, hkey]
  have hprobe : cacheProbeHit s2 (initSt s2 [(cacheKey s1, some v)]) =
      true := by
    simp [cacheProbeHit, initSt, hget]
    exact hcc2
  have hrw : runSit s2 evts2 [(cacheKey s1, some v)] =
      cacheHitPath s2 (initSt s2 [(cacheKey s1, some v)]) := by
    simp [runSit, send_from_cache_or_run, hprobe]
  refine ⟨hkey, hres1, hfn1, ?_, ?_⟩ <;>
    rw [hrw] <;>
    simp [cacheHitPath, sendTail, eventSet, evFlag, consumed, setFlag, drain,
          drainGo, runWatcher, initSt, startResult, hget, hcc2]

/-- C9 witness: the cache law at a concrete pair of invocations whose
keyword arguments are written in different orders. -/
theorem C9_cache_law_witness :
    exSitKw1.cacheConfigured = true ∧
    exSitKw2.cacheConfigured = true ∧
    exSitKw2.fnName = exSitKw1.fnName ∧
    exSitKw2.args = exSitKw1.args ∧
    NodupKeys exSitKw1.kwargs ∧
    List.Perm exSitKw2.kwargs exSitKw1.kwargs ∧
    (cacheKey exSitKw2 = cacheKey exSitKw1 ∧
     startResult (runSit exSitKw1 [Evt.ret 5] []) = some 5 ∧
     (runSit exSitKw1 [Evt.ret 5] []).fnCalls = 1 ∧
     startResult (runSit exSitKw2 []
       (runSit exSitKw1 [Evt.ret 5] []).cache) = some 5 ∧
     (runSit exSitKw2 [] (runSit exSitKw1 [Evt.ret 5] []).cache).fnCalls =
       0) :=
  ⟨rfl, rfl, rfl, rfl, by unfold NodupKeys; decide, by decide,
   C9_cache_law exSitKw1 exSitKw2 5 [] rfl rfl rfl rfl
     (by unfold NodupKeys; decide) (by decide)⟩

end Sitters
